import Mathlib

/-!
Verification development for the duplitrade snapshot-diff-and-notify scripts
(`save_open_positions.py`, `get_open_positions.py`, `signin.py`).

The Python code is shallowly embedded: JSON values are an inductive type
(numbers split into integers and finite non-integer floats, the latter as
rationals), Python dictionaries from parsed JSON are association lists with
unique keys, and the side-effecting pieces (HTTP, file system, process exit)
are modelled by passing their observable inputs and outputs explicitly.
A run that terminates by `sys.exit(n)` with `n` nonzero, or by an unhandled
exception (Python then exits with status 1), is modelled as a fatal outcome.
-/

/-- A JSON value as produced by Python's `json` module: objects are ordered
field lists (a parser never produces duplicate keys), numbers are either
`int` or finite `float` (embedded as a rational). -/
inductive Json where
  | null
  | bool (b : Bool)
  | num (n : Int)
  | fnum (q : ℚ)
  | str (s : String)
  | arr (elems : List Json)
  | obj (fields : List (String × Json))

/-- First binding of key `k` in an object's field list (Python dict lookup). -/
def lookupField : List (String × Json) → String → Option Json
  | [], _ => none
  | (k, v) :: rest, key => if k = key then some v else lookupField rest key

/-- Python truthiness of a JSON-derived value (`bool(x)`). -/
def Json.truthy : Json → Bool
  | .null => false
  | .bool b => b
  | .num n => n != 0
  | .fnum q => q != 0
  | .str s => s != ""
  | .arr elems => !elems.isEmpty
  | .obj fields => !fields.isEmpty

/-- Whether a JSON value is an object (`isinstance(x, dict)`). -/
def Json.isObj : Json → Bool
  | .obj _ => true
  | _ => false

/-- Digits of an integer literal to its value; `none` unless the character
list is nonempty and all ASCII digits. -/
def digitsToNat (cs : List Char) : Option Nat :=
  if cs.isEmpty then none
  else if cs.all Char.isDigit then
    some (cs.foldl (fun a c => a * 10 + (c.toNat - 48)) 0)
  else none

/-- Drop leading and trailing whitespace from a character list. -/
def stripWs (cs : List Char) : List Char :=
  ((cs.dropWhile Char.isWhitespace).reverse.dropWhile Char.isWhitespace).reverse

/-- Python `int(s)` on a string: surrounding whitespace stripped, one
optional sign, then decimal digits; anything else raises `ValueError`
(modelled as `none`). -/
def pyIntOfString (s : String) : Option Int :=
  match stripWs s.data with
  | '-' :: rest => (digitsToNat rest).map (fun n => -(n : Int))
  | '+' :: rest => (digitsToNat rest).map (fun n => (n : Int))
  | cs => (digitsToNat cs).map (fun n => (n : Int))

/-- Truncation toward zero, the behaviour of Python `int()` on a float. -/
def truncToward0 (q : ℚ) : Int :=
  if 0 ≤ q then ⌊q⌋ else ⌈q⌉

/-- Python `int(x)` on a JSON-derived value: ints pass through, bools are
0/1, floats truncate toward zero, strings parse as integer literals;
`None`, lists and dicts raise `TypeError` (modelled as `none`, matching the
`except (TypeError, ValueError)` that skips the entry). -/
def pyInt : Json → Option Int
  | .num n => some n
  | .bool b => some (if b then 1 else 0)
  | .fnum q => some (truncToward0 q)
  | .str s => pyIntOfString s
  | _ => none

/-- Python `str(x)` on a JSON-derived value. Rendering of composite or
float values is approximate; no verified claim depends on the exact text,
only on `str` of a string being itself. -/
def pyStr : Json → String
  | .null => "None"
  | .bool b => if b then "True" else "False"
  | .num n => toString n
  | .fnum q => toString q
  | .str s => s
  | .arr _ => "[...]"
  | .obj _ => "\x7b...\x7d"

/-- Insertion-order dict assignment `m[k] = v`: overwrite in place when the
key exists, else append. -/
def dictInsert (m : List (Int × String)) (k : Int) (v : String) : List (Int × String) :=
  if m.any (fun kv => kv.1 == k) then
    m.map (fun kv => if kv.1 == k then (k, v) else kv)
  else m ++ [(k, v)]

/-- One loop iteration of `extract_positions_map` (save_open_positions.py
lines 107-115): skip non-dict elements, elements without a "ticket" field
and elements whose ticket does not coerce to an int; otherwise store
`str(symbol or "UNKNOWN")` under the ticket. -/
def posStep (m : List (Int × String)) (p : Json) : List (Int × String) :=
  match p with
  | Json.obj pfs =>
    match lookupField pfs "ticket" with
    | none => m
    | some tv =>
      match pyInt tv with
      | none => m
      | some ticket =>
        let symbol :=
          match lookupField pfs "symbol" with
          | some sv => if sv.truthy then pyStr sv else "UNKNOWN"
          | none => "UNKNOWN"
        dictInsert m ticket symbol
  | _ => m

/-- The guard clauses of `extract_positions_map` (lines 97-104): the wrapper
must be a dict, its "data" a dict, and that dict's "openPositions" a list;
otherwise the result is the empty map. -/
def opsOf (w : Json) : Option (List Json) :=
  match w with
  | Json.obj fs =>
    match lookupField fs "data" with
    | some (Json.obj dfs) =>
      match lookupField dfs "openPositions" with
      | some (Json.arr ops) => some ops
      | _ => none
    | _ => none
  | _ => none

/-- `extract_positions_map` of save_open_positions.py: ticket → symbol map
from `wrapper["data"]["openPositions"]`, empty on any shape mismatch. -/
def extract_positions_map (w : Json) : List (Int × String) :=
  match opsOf w with
  | some ops => ops.foldl posStep []
  | none => []

/-- The set of ticket ids of an extracted map (`set(m.keys())`). -/
def ticketSet (m : List (Int × String)) : Finset Int :=
  (m.map Prod.fst).toFinset

/-- The ticket an individual position entry contributes, if any: the entry
must be a dict with a "ticket" field that coerces to an int. -/
def ticketOf (p : Json) : Option Int :=
  match p with
  | Json.obj pfs => (lookupField pfs "ticket").bind pyInt
  | _ => none

/-- The distinct ticket ids of a map, as a list (`set(m.keys())` with the
set realised as a duplicate-free list). -/
def keyList (m : List (Int × String)) : List Int :=
  (m.map Prod.fst).dedup

/-- The sorted list of added ticket ids, `sorted(new_ids - old_ids)` of
build_message (save_open_positions.py lines 120-123). -/
def added_ids (old_map new_map : List (Int × String)) : List Int :=
  List.insertionSort (· ≤ ·)
    ((keyList new_map).filter (fun t => decide (t ∉ keyList old_map)))

/-- The sorted list of removed ticket ids, `sorted(old_ids - new_ids)` of
build_message (line 124). -/
def removed_ids (old_map new_map : List (Int × String)) : List Int :=
  List.insertionSort (· ≤ ·)
    ((keyList old_map).filter (fun t => decide (t ∉ keyList new_map)))

/-- Extraction applied to an upstream position list wrapped the way the
orchestrator wraps it. -/
def extractOps (ops : List Json) : List (Int × String) :=
  extract_positions_map (Json.obj [("data", Json.obj [("openPositions", Json.arr ops)])])

/-- Result of evaluating a Python expression that may raise: a value, or a
raised exception (here only the `AttributeError` from calling `.get` on a
non-dict). -/
inductive PyVal where
  | val (j : Json)
  | exn

/-- Python `a or b` on already-evaluated operands: an exception in `a`
propagates; a truthy `a` short-circuits (so `b` is never looked at). -/
def pyOr (a b : PyVal) : PyVal :=
  match a with
  | PyVal.exn => PyVal.exn
  | PyVal.val j => if j.truthy then PyVal.val j else b

/-- Python `x.get(k)`: `None` when the key is absent; raises when `x` is
not a dict. -/
def pyGet (x : Json) (k : String) : PyVal :=
  match x with
  | Json.obj fs => PyVal.val ((lookupField fs k).getD Json.null)
  | _ => PyVal.exn

/-- Python `x.get(k, d)` with an explicit default. -/
def pyGetD (x : Json) (k : String) (d : Json) : PyVal :=
  match x with
  | Json.obj fs => PyVal.val ((lookupField fs k).getD d)
  | _ => PyVal.exn

/-- Sequencing: evaluate `f` on the value unless an exception was raised. -/
def pyBind (a : PyVal) (f : Json → PyVal) : PyVal :=
  match a with
  | PyVal.exn => PyVal.exn
  | PyVal.val j => f j

/-- The fate of the resolved token expression: `some` when the run
continues with that token, `none` when it terminates with nonzero status —
either `sys.exit(1)` on a falsy token (lines 40-42) or an unhandled
exception (Python then exits with status 1). -/
def tokenResult : PyVal → Option Json
  | PyVal.exn => none
  | PyVal.val j => if j.truthy then some j else none

/-- The token `or`-chain of save_open_positions.py lines 32-39. -/
def token_expr_save (data : Json) : PyVal :=
  pyOr (pyGet data "token")
    (pyOr (pyGet data "tokn")
      (pyOr (pyGet data "access_token")
        (pyOr (pyGet data "accessToken")
          (pyOr (pyBind (pyOr (pyGet data "data") (PyVal.val (Json.obj [])))
                  (fun d => pyGet d "token"))
            (pyBind (pyOr (pyGet data "data") (PyVal.val (Json.obj [])))
              (fun d => pyGet d "tokn"))))))

/-- The token `or`-chain of get_open_positions.py lines 35-41: only
`data.get("data", {}).get("token")` at the nested level. -/
def token_expr_get (data : Json) : PyVal :=
  pyOr (pyGet data "token")
    (pyOr (pyGet data "tokn")
      (pyOr (pyGet data "access_token")
        (pyOr (pyGet data "accessToken")
          (pyBind (pyGetD data "data" (Json.obj []))
            (fun d => pyGet d "token")))))

/-- Token resolution of `signin_and_get_token` in save_open_positions.py,
applied to an already-parsed signin response. -/
def signin_token_save (data : Json) : Option Json :=
  tokenResult (token_expr_save data)

/-- Token resolution of `signin_and_get_token` in get_open_positions.py. -/
def signin_token_get (data : Json) : Option Json :=
  tokenResult (token_expr_get data)

/-- One probed candidate key, following the spec's words: the key must be
present and its value non-empty (truthy). -/
def probe (fs : List (String × Json)) (k : String) : Option Json :=
  match lookupField fs k with
  | some v => if v.truthy then some v else none
  | none => none

/-- First successful probe over an ordered candidate-key list. -/
def firstProbe (fs : List (String × Json)) : List String → Option Json
  | [] => none
  | k :: ks =>
    match probe fs k with
    | some v => some v
    | none => firstProbe fs ks

/-- Token resolution as the spec states it (section 4.1): probe `token`,
`tokn`, `access_token`, `accessToken` at the top level, then `token`, `tokn`
inside a nested "data" object; the first present non-empty value wins, and
`none` means the run fails fatally. -/
def spec_token_order (data : Json) : Option Json :=
  match data with
  | Json.obj fs =>
    match firstProbe fs ["token", "tokn", "access_token", "accessToken"] with
    | some v => some v
    | none =>
      match lookupField fs "data" with
      | some (Json.obj dfs) => firstProbe dfs ["token", "tokn"]
      | _ => none
  | _ => none

/-- The candidate-key order actually implemented by get_open_positions.py:
as `spec_token_order` but with only `token` probed under "data". -/
def spec_token_order_get (data : Json) : Option Json :=
  match data with
  | Json.obj fs =>
    match firstProbe fs ["token", "tokn", "access_token", "accessToken"] with
    | some v => some v
    | none =>
      match lookupField fs "data" with
      | some (Json.obj dfs) => firstProbe dfs ["token"]
      | _ => none
  | _ => none

/-- The observable states of the snapshot file feeding
`read_existing_payload`: missing, present but unreadable or not valid JSON,
or present with a parsed JSON value.  Serialising a JSON value with
`json.dump` and parsing it back with `json.load` is assumed faithful, so a
write is modelled as making the file `parsed` at the written value. -/
inductive RawFile where
  | absent
  | invalid
  | parsed (j : Json)

/-- `read_existing_payload` (save_open_positions.py lines 62-70): `None`
when the file is missing, unreadable or not JSON, or when the parsed value
is not a dict; otherwise the parsed dict. -/
def read_existing_payload : RawFile → Option Json
  | RawFile.absent => none
  | RawFile.invalid => none
  | RawFile.parsed j => match j with
    | Json.obj fs => some (Json.obj fs)
    | _ => none

/-- Python truthiness of an `Optional[dict]` (`if existing:`). -/
def optTruthy : Option Json → Bool
  | none => false
  | some j => j.truthy

/-- Python truthiness of `os.getenv` output (`if tg_token and ...`). -/
def strOptTruthy : Option String → Bool
  | none => false
  | some s => s != ""

/-- The `data` field of the persisted object (main line 176):
`api_resp.get("data")` when the response is a dict containing that key,
otherwise the whole response. -/
def normalize_data (api_resp : Json) : Json :=
  match api_resp with
  | Json.obj fs =>
    match lookupField fs "data" with
    | some d => d
    | none => Json.obj fs
  | _ => api_resp

/-- The object persisted by main (lines 173-177). -/
def new_file_obj (provider_id fetched_at_utc : String) (api_resp : Json) : Json :=
  Json.obj [("provider_id", Json.str provider_id),
            ("fetched_at_utc", Json.str fetched_at_utc),
            ("data", normalize_data api_resp)]

/-- Post-HTTP processing of `fetch_open_positions`
(save_open_positions.py lines 53-59), as a function of the response's
success flag, its parse as JSON when it is valid JSON, and its body text:
`none` models `sys.exit(1)`; a non-JSON success body is wrapped as
`{"raw": text}`. -/
def fetch_open_positions_result (ok : Bool) (parsedBody : Option Json) (text : String) :
    Option Json :=
  if ok then
    match parsedBody with
    | some j => some j
    | none => some (Json.obj [("raw", Json.str text)])
  else none

/-- Post-HTTP processing of `get_open_positions`
(get_open_positions.py lines 61-68): a non-JSON success body is returned
as the bare body text, not wrapped. -/
def get_open_positions_result (ok : Bool) (parsedBody : Option Json) (text : String) :
    Option Json :=
  if ok then
    match parsedBody with
    | some j => some j
    | none => some (Json.str text)
  else none

/-- Observable outcome of one run of save_open_positions.py's `main` after
a successful signin and fetch.  `notifyAttempted` records that the Telegram
POST was issued; `notified` that it was delivered; `oldTickets` and
`newTickets` are the two ticket sets main compares. -/
structure RunResult where
  exitCode : Nat
  wrote : Bool
  fileAfter : RawFile
  notifyAttempted : Bool
  notified : Bool
  oldTickets : Finset Int
  newTickets : Finset Int

/-- `main` of save_open_positions.py from line 172 on, given the snapshot
file's state, the fetched payload, the two optional Telegram env vars, and
whether the Telegram endpoint would answer with a success status
(`sendOk = false` makes `raise_for_status` raise, which ends the process
with status 1). -/
def run_main (provider_id fetched_at_utc : String) (file : RawFile) (api_resp : Json)
    (tg_token tg_chat_id : Option String) (sendOk : Bool) : RunResult :=
  let nfo := new_file_obj provider_id fetched_at_utc api_resp
  let new_map := extract_positions_map (Json.obj [("data", normalize_data api_resp)])
  let existing := read_existing_payload file
  let old_map := if optTruthy existing then extract_positions_map (existing.getD Json.null)
                 else []
  if optTruthy existing = true ∧ ticketSet new_map = ticketSet old_map then
    { exitCode := 0, wrote := false, fileAfter := file,
      notifyAttempted := false, notified := false,
      oldTickets := ticketSet old_map, newTickets := ticketSet new_map }
  else if strOptTruthy tg_token = true ∧ strOptTruthy tg_chat_id = true then
    if sendOk then
      { exitCode := 0, wrote := true, fileAfter := RawFile.parsed nfo,
        notifyAttempted := true, notified := true,
        oldTickets := ticketSet old_map, newTickets := ticketSet new_map }
    else
      { exitCode := 1, wrote := true, fileAfter := RawFile.parsed nfo,
        notifyAttempted := true, notified := false,
        oldTickets := ticketSet old_map, newTickets := ticketSet new_map }
  else
    { exitCode := 0, wrote := true, fileAfter := RawFile.parsed nfo,
      notifyAttempted := false, notified := false,
      oldTickets := ticketSet old_map, newTickets := ticketSet new_map }

/-- A position entry fixture used by concrete instances below. -/
def wPos (t : Int) (sym : String) : Json :=
  Json.obj [("ticket", Json.num t), ("symbol", Json.str sym)]

/-- A prior snapshot file that exists and parses to the empty JSON object. -/
def emptyPriorFile : RawFile := RawFile.parsed (Json.obj [])

/-- A fetched payload with an empty open-positions list plus an aggregate
field, so its ticket set is empty. -/
def emptyPositionsResp : Json :=
  Json.obj [("data", Json.obj [("openPositions", Json.arr []),
                               ("totalNetPL", Json.num 5)])]

/-- A prior snapshot holding tickets 101 and 102. -/
def priorSnap : Json :=
  Json.obj [("data", Json.obj [("openPositions",
    Json.arr [wPos 101 "EURUSD", wPos 102 "GBPUSD"]), ("totalNetPL", Json.num 3)])]

/-- A fresh payload with the same tickets 101 and 102 in the other order
and a different aggregate value. -/
def sameTicketsResp : Json :=
  Json.obj [("data", Json.obj [("openPositions",
    Json.arr [wPos 102 "GBPUSD", wPos 101 "EURUSD"]), ("totalNetPL", Json.num 7)])]

/-- A signin response whose only token lives at `data.tokn`. -/
def nestedToknResp : Json := Json.obj [("data", Json.obj [("tokn", Json.str "x")])]

lemma mem_keys_dictInsert (m : List (Int × String)) (k : Int) (v : String) (t : Int) :
    t ∈ (dictInsert m k v).map Prod.fst ↔ t ∈ m.map Prod.fst ∨ t = k := by
  unfold dictInsert
  by_cases h : m.any (fun kv => kv.1 == k) = true
  · rw [if_pos h]
    have hmap : (m.map (fun kv => if kv.1 == k then (k, v) else kv)).map Prod.fst
        = m.map Prod.fst := by
      rw [List.map_map]
      apply List.map_congr_left
      intro kv _
      by_cases hk : kv.1 = k
      · simp [Function.comp_apply, hk]
      · simp [Function.comp_apply, hk]
    rw [hmap]
    constructor
    · exact Or.inl
    · rintro (ht | rfl)
      · exact ht
      · rcases List.any_eq_true.mp h with ⟨kv, hmem, hbeq⟩
        exact List.mem_map.mpr ⟨kv, hmem, eq_of_beq hbeq⟩
  · rw [if_neg h]
    simp [List.map_append]

lemma mem_keys_posStep (m : List (Int × String)) (p : Json) (t : Int) :
    t ∈ (posStep m p).map Prod.fst ↔ t ∈ m.map Prod.fst ∨ ticketOf p = some t := by
  cases p with
  | obj pfs =>
    unfold posStep ticketOf
    cases hl : lookupField pfs "ticket" with
    | none => simp [hl]
    | some tv =>
      cases hi : pyInt tv with
      | none => simp [hl, hi]
      | some ticket =>
        simp only [hl, hi, Option.some_bind, mem_keys_dictInsert, Option.some_inj]
        constructor
        · rintro (h | rfl)
          · exact Or.inl h
          · exact Or.inr rfl
        · rintro (h | rfl)
          · exact Or.inl h
          · exact Or.inr rfl
  | null => simp [posStep, ticketOf]
  | bool b => simp [posStep, ticketOf]
  | num n => simp [posStep, ticketOf]
  | fnum q => simp [posStep, ticketOf]
  | str s => simp [posStep, ticketOf]
  | arr elems => simp [posStep, ticketOf]

lemma mem_keys_foldl (ops : List Json) (m : List (Int × String)) (t : Int) :
    t ∈ (ops.foldl posStep m).map Prod.fst ↔
      t ∈ m.map Prod.fst ∨ ∃ p ∈ ops, ticketOf p = some t := by
  induction ops generalizing m with
  | nil => simp
  | cons p ops ih =>
    simp only [List.foldl_cons, ih, mem_keys_posStep, List.mem_cons]
    constructor
    · rintro ((h | h) | ⟨q, hq, hqt⟩)
      · exact Or.inl h
      · exact Or.inr ⟨p, Or.inl rfl, h⟩
      · exact Or.inr ⟨q, Or.inr hq, hqt⟩
    · rintro (h | ⟨q, (rfl | hq), hqt⟩)
      · exact Or.inl (Or.inl h)
      · exact Or.inl (Or.inr hqt)
      · exact Or.inr ⟨q, hq, hqt⟩

lemma mem_ticketSet_extract (w : Json) (t : Int) :
    t ∈ ticketSet (extract_positions_map w) ↔
      ∃ ops, opsOf w = some ops ∧ ∃ p ∈ ops, ticketOf p = some t := by
  unfold extract_positions_map ticketSet
  cases h : opsOf w with
  | none => simp
  | some ops =>
    rw [List.mem_toFinset, mem_keys_foldl]
    simp

lemma ticketSet_extractOps_perm {ops1 ops2 : List Json} (h : ops1.Perm ops2) :
    ticketSet (extractOps ops1) = ticketSet (extractOps ops2) := by
  ext t
  rw [show extractOps ops1 = extract_positions_map (Json.obj [("data",
        Json.obj [("openPositions", Json.arr ops1)])]) from rfl,
      show extractOps ops2 = extract_positions_map (Json.obj [("data",
        Json.obj [("openPositions", Json.arr ops2)])]) from rfl,
      mem_ticketSet_extract, mem_ticketSet_extract]
  constructor
  · rintro ⟨ops, hops, p, hp, hpt⟩
    have he : ops1 = ops := by
      simpa [opsOf, lookupField] using hops
    subst he
    exact ⟨ops2, rfl, p, h.mem_iff.mp hp, hpt⟩
  · rintro ⟨ops, hops, p, hp, hpt⟩
    have he : ops2 = ops := by
      simpa [opsOf, lookupField] using hops
    subst he
    exact ⟨ops1, rfl, p, h.mem_iff.mpr hp, hpt⟩

lemma mem_added_pre (old_map new_map : List (Int × String)) (t : Int) :
    t ∈ (keyList new_map).filter (fun x => decide (x ∉ keyList old_map)) ↔
      t ∈ ticketSet new_map ∧ t ∉ ticketSet old_map := by
  rw [List.mem_filter]
  unfold keyList ticketSet
  simp [List.mem_dedup, List.mem_toFinset]

lemma mem_added_ids (old_map new_map : List (Int × String)) (t : Int) :
    t ∈ added_ids old_map new_map ↔ t ∈ ticketSet new_map ∧ t ∉ ticketSet old_map := by
  unfold added_ids
  rw [(List.perm_insertionSort (· ≤ ·) _).mem_iff]
  exact mem_added_pre old_map new_map t

lemma mem_removed_ids (old_map new_map : List (Int × String)) (t : Int) :
    t ∈ removed_ids old_map new_map ↔ t ∈ ticketSet old_map ∧ t ∉ ticketSet new_map := by
  unfold removed_ids
  rw [(List.perm_insertionSort (· ≤ ·) _).mem_iff]
  exact mem_added_pre new_map old_map t

lemma sorted_added_ids (old_map new_map : List (Int × String)) :
    (added_ids old_map new_map).Sorted (· ≤ ·) :=
  List.sorted_insertionSort (· ≤ ·) _

lemma sorted_removed_ids (old_map new_map : List (Int × String)) :
    (removed_ids old_map new_map).Sorted (· ≤ ·) :=
  List.sorted_insertionSort (· ≤ ·) _

lemma nodup_keyList (m : List (Int × String)) : (keyList m).Nodup :=
  List.nodup_dedup _

lemma added_ids_congr {om om2 nm nm2 : List (Int × String)}
    (ho : ticketSet om = ticketSet om2) (hn : ticketSet nm = ticketSet nm2) :
    added_ids om nm = added_ids om2 nm2 := by
  apply List.eq_of_perm_of_sorted ?_ (sorted_added_ids om nm) (sorted_added_ids om2 nm2)
  unfold added_ids
  refine ((List.perm_insertionSort _ _).trans ?_).trans
    (List.perm_insertionSort _ _).symm
  rw [List.perm_ext_iff_of_nodup
    (List.Nodup.filter _ (nodup_keyList nm)) (List.Nodup.filter _ (nodup_keyList nm2))]
  intro t
  rw [mem_added_pre, mem_added_pre, ho, hn]

lemma removed_ids_congr {om om2 nm nm2 : List (Int × String)}
    (ho : ticketSet om = ticketSet om2) (hn : ticketSet nm = ticketSet nm2) :
    removed_ids om nm = removed_ids om2 nm2 := by
  apply List.eq_of_perm_of_sorted ?_ (sorted_removed_ids om nm) (sorted_removed_ids om2 nm2)
  unfold removed_ids
  refine ((List.perm_insertionSort _ _).trans ?_).trans
    (List.perm_insertionSort _ _).symm
  rw [List.perm_ext_iff_of_nodup
    (List.Nodup.filter _ (nodup_keyList om)) (List.Nodup.filter _ (nodup_keyList om2))]
  intro t
  rw [mem_added_pre, mem_added_pre, ho, hn]

lemma tokenResult_pyGet (dfs : List (String × Json)) (k : String) :
    tokenResult (pyGet (Json.obj dfs) k) = probe dfs k := by
  cases h : lookupField dfs k with
  | none => simp [pyGet, h, tokenResult, Json.truthy, probe]
  | some v => by_cases hv : v.truthy <;> simp [pyGet, h, tokenResult, hv, probe]

lemma firstProbe_singleton (dfs : List (String × Json)) (k : String) :
    firstProbe dfs [k] = probe dfs k := by
  cases h : probe dfs k <;> simp [firstProbe, h]

lemma firstProbe_cons_some {dfs : List (String × Json)} {k : String} {v : Json}
    (ks : List String) (hp : probe dfs k = some v) :
    firstProbe dfs (k :: ks) = some v := by
  unfold firstProbe
  rw [hp]

lemma firstProbe_cons_none {dfs : List (String × Json)} {k : String}
    (ks : List String) (hp : probe dfs k = none) :
    firstProbe dfs (k :: ks) = firstProbe dfs ks := by
  unfold firstProbe
  rw [hp]
  cases ks <;> rfl

lemma tokenResult_pyOr_get (fs : List (String × Json)) (k : String) (rest : PyVal) :
    tokenResult (pyOr (pyGet (Json.obj fs) k) rest) =
      match probe fs k with
      | some v => some v
      | none => tokenResult rest := by
  cases h : lookupField fs k with
  | none => simp [pyGet, h, pyOr, Json.truthy, probe]
  | some v =>
    by_cases hv : v.truthy
    · simp [pyGet, h, pyOr, hv, probe, tokenResult]
    · simp [pyGet, h, pyOr, hv, probe]

lemma tokenResult_val_getD (dfs : List (String × Json)) (k : String) :
    tokenResult (PyVal.val ((lookupField dfs k).getD Json.null)) = probe dfs k := by
  cases h : lookupField dfs k with
  | none => simp [h, tokenResult, Json.truthy, probe]
  | some v => by_cases hv : v.truthy <;> simp [h, tokenResult, hv, probe]

lemma tokenResult_nested_save (fs : List (String × Json)) :
    tokenResult (pyOr
        (pyBind (pyOr (pyGet (Json.obj fs) "data") (PyVal.val (Json.obj [])))
          (fun d => pyGet d "token"))
        (pyBind (pyOr (pyGet (Json.obj fs) "data") (PyVal.val (Json.obj [])))
          (fun d => pyGet d "tokn"))) =
      match lookupField fs "data" with
      | some (Json.obj dfs) => firstProbe dfs ["token", "tokn"]
      | _ => none := by
  cases h : lookupField fs "data" with
  | none =>
    simp [pyGet, h, pyOr, pyBind, Json.truthy, tokenResult, lookupField]
  | some d =>
    cases d with
    | obj dfs =>
      cases dfs with
      | nil =>
        simp [pyGet, h, pyOr, pyBind, Json.truthy, tokenResult, lookupField,
          firstProbe, probe]
      | cons kv rest =>
        have hd : (Json.obj (kv :: rest)).truthy = true := by
          simp [Json.truthy]
        simp only [pyGet, h, Option.getD_some, pyOr, hd, if_pos, pyBind]
        cases hl : lookupField (kv :: rest) "token" with
        | some v =>
          by_cases hv : v.truthy
          · have hp : probe (kv :: rest) "token" = some v := by simp [probe, hl, hv]
            rw [firstProbe_cons_some ["tokn"] hp]
            simp [hl, hv, tokenResult]
          · have hp : probe (kv :: rest) "token" = none := by simp [probe, hl, hv]
            rw [firstProbe_cons_none ["tokn"] hp, firstProbe_singleton]
            simp only [hl, Option.getD_some]
            rw [if_neg hv]
            exact tokenResult_val_getD (kv :: rest) "tokn"
        | none =>
          have hp : probe (kv :: rest) "token" = none := by simp [probe, hl]
          rw [firstProbe_cons_none ["tokn"] hp, firstProbe_singleton]
          simp only [hl, Option.getD_none]
          rw [if_neg (by simp [Json.truthy])]
          exact tokenResult_val_getD (kv :: rest) "tokn"
    | null => simp [pyGet, h, pyOr, pyBind, Json.truthy, tokenResult, lookupField]
    | bool b =>
      cases b <;>
        simp [pyGet, h, pyOr, pyBind, Json.truthy, tokenResult, lookupField]
    | num n =>
      by_cases hn : n = 0 <;>
        simp [pyGet, h, pyOr, pyBind, hn, tokenResult, Json.truthy, lookupField]
    | fnum q =>
      by_cases hq : q = 0 <;>
        simp [pyGet, h, pyOr, pyBind, hq, tokenResult, Json.truthy, lookupField]
    | str s =>
      by_cases hs : s = "" <;>
        simp [pyGet, h, pyOr, pyBind, hs, tokenResult, Json.truthy, lookupField]
    | arr elems =>
      cases elems <;>
        simp [pyGet, h, pyOr, pyBind, tokenResult, Json.truthy, lookupField]

lemma tokenResult_nested_get (fs : List (String × Json)) :
    tokenResult (pyBind (pyGetD (Json.obj fs) "data" (Json.obj []))
        (fun d => pyGet d "token")) =
      match lookupField fs "data" with
      | some (Json.obj dfs) => firstProbe dfs ["token"]
      | _ => none := by
  cases h : lookupField fs "data" with
  | none =>
    simp [pyGetD, h, pyBind, pyGet, tokenResult, Json.truthy, lookupField]
  | some d =>
    cases d with
    | obj dfs =>
      simp only [pyGetD, h, Option.getD_some, pyBind]
      rw [tokenResult_pyGet, firstProbe_singleton]
    | null => simp [pyGetD, h, pyBind, pyGet, tokenResult]
    | bool b => simp [pyGetD, h, pyBind, pyGet, tokenResult]
    | num n => simp [pyGetD, h, pyBind, pyGet, tokenResult]
    | fnum q => simp [pyGetD, h, pyBind, pyGet, tokenResult]
    | str s => simp [pyGetD, h, pyBind, pyGet, tokenResult]
    | arr elems => simp [pyGetD, h, pyBind, pyGet, tokenResult]

lemma signin_token_save_eq_spec (data : Json) :
    signin_token_save data = spec_token_order data := by
  cases data with
  | obj fs =>
    unfold signin_token_save token_expr_save
    rw [tokenResult_pyOr_get, tokenResult_pyOr_get, tokenResult_pyOr_get,
      tokenResult_pyOr_get, tokenResult_nested_save]
    unfold spec_token_order
    simp only [firstProbe]
    cases probe fs "token" <;> cases probe fs "tokn" <;>
      cases probe fs "access_token" <;> cases probe fs "accessToken" <;> simp
  | null => rfl
  | bool b => rfl
  | num n => rfl
  | fnum q => rfl
  | str s => rfl
  | arr elems => rfl

lemma signin_token_get_eq_spec (data : Json) :
    signin_token_get data = spec_token_order_get data := by
  cases data with
  | obj fs =>
    unfold signin_token_get token_expr_get
    rw [tokenResult_pyOr_get, tokenResult_pyOr_get, tokenResult_pyOr_get,
      tokenResult_pyOr_get, tokenResult_nested_get]
    unfold spec_token_order_get
    simp only [firstProbe]
    cases probe fs "token" <;> cases probe fs "tokn" <;>
      cases probe fs "access_token" <;> cases probe fs "accessToken" <;> simp
  | null => rfl
  | bool b => rfl
  | num n => rfl
  | fnum q => rfl
  | str s => rfl
  | arr elems => rfl

/-- C3: ticket extraction is total and yields exactly the tickets of those
elements of `payload.data.openPositions` that are mappings with a "ticket"
field coercing to an integer; elements failing any of these conditions are
skipped, and a payload whose data is not a mapping or whose openPositions
is not a list contributes no tickets at all (`opsOf` is then `none`, so the
set is empty). -/
theorem extract_tickets_total_characterization (w : Json) (t : Int) :
    t ∈ ticketSet (extract_positions_map w) ↔
      ∃ ops, opsOf w = some ops ∧ ∃ p ∈ ops, ticketOf p = some t :=
  mem_ticketSet_extract w t

/-- C4: the notification diff is `added = new − old` and
`removed = old − new`, both emitted as ascending-sorted sequences, and the
emitted lists are unchanged under any reordering of the upstream position
lists. -/
theorem diff_added_removed_sorted_and_order_independent :
    (∀ old_map new_map : List (Int × String),
      (added_ids old_map new_map).Sorted (· ≤ ·) ∧
      (removed_ids old_map new_map).Sorted (· ≤ ·) ∧
      (∀ t, t ∈ added_ids old_map new_map ↔
        t ∈ ticketSet new_map ∧ t ∉ ticketSet old_map) ∧
      (∀ t, t ∈ removed_ids old_map new_map ↔
        t ∈ ticketSet old_map ∧ t ∉ ticketSet new_map)) ∧
    (∀ oldOps newOps oldOps2 newOps2 : List Json,
      oldOps.Perm oldOps2 → newOps.Perm newOps2 →
      added_ids (extractOps oldOps) (extractOps newOps)
          = added_ids (extractOps oldOps2) (extractOps newOps2) ∧
      removed_ids (extractOps oldOps) (extractOps newOps)
          = removed_ids (extractOps oldOps2) (extractOps newOps2)) := by
  constructor
  · intro om nm
    exact ⟨sorted_added_ids om nm, sorted_removed_ids om nm,
      mem_added_ids om nm, mem_removed_ids om nm⟩
  · intro a b a2 b2 ha hb
    exact ⟨added_ids_congr (ticketSet_extractOps_perm ha) (ticketSet_extractOps_perm hb),
      removed_ids_congr (ticketSet_extractOps_perm ha) (ticketSet_extractOps_perm hb)⟩

/-- Witness for C4: the spec's own example (prior tickets 101, 102 and new
tickets 101, 102, 103) gives added `[103]` and removed `[]`, and reordering
both upstream lists leaves the added list unchanged. -/
theorem diff_added_removed_witness :
    added_ids (extractOps [wPos 101 "EURUSD", wPos 102 "GBPUSD"])
        (extractOps [wPos 101 "EURUSD", wPos 102 "GBPUSD", wPos 103 "USDJPY"]) = [103] ∧
    removed_ids (extractOps [wPos 101 "EURUSD", wPos 102 "GBPUSD"])
        (extractOps [wPos 101 "EURUSD", wPos 102 "GBPUSD", wPos 103 "USDJPY"]) = [] ∧
    added_ids (extractOps [wPos 101 "EURUSD", wPos 102 "GBPUSD"])
        (extractOps [wPos 101 "EURUSD", wPos 102 "GBPUSD", wPos 103 "USDJPY"])
      = added_ids (extractOps [wPos 102 "GBPUSD", wPos 101 "EURUSD"])
        (extractOps [wPos 102 "GBPUSD", wPos 101 "EURUSD", wPos 103 "USDJPY"]) :=
  ⟨by decide, by decide,
    (diff_added_removed_sorted_and_order_independent.2
      [wPos 101 "EURUSD", wPos 102 "GBPUSD"]
      [wPos 101 "EURUSD", wPos 102 "GBPUSD", wPos 103 "USDJPY"]
      [wPos 102 "GBPUSD", wPos 101 "EURUSD"]
      [wPos 102 "GBPUSD", wPos 101 "EURUSD", wPos 103 "USDJPY"]
      (List.Perm.swap (wPos 102 "GBPUSD") (wPos 101 "EURUSD") [])
      (List.Perm.swap (wPos 102 "GBPUSD") (wPos 101 "EURUSD") [wPos 103 "USDJPY"])).1⟩

/-- C2 counterexample: the claim states that BOTH signin helpers follow the
six-key probe order ending in `data.tokn`; on a response whose only token
sits at `data.tokn`, the get_open_positions.py variant fails fatally
(resolves `none`) while the claimed order resolves the token, so the claim
is false at this input. -/
theorem token_probe_claim_fails_for_get_variant :
    ¬ (signin_token_save nestedToknResp = spec_token_order nestedToknResp ∧
       signin_token_get nestedToknResp = spec_token_order nestedToknResp) := by
  intro h
  have h2 : (none : Option Json) = some (Json.str "x") := h.2
  exact Option.noConfusion h2

/-- C2 (amended): the save_open_positions.py helper resolves the token by
probing, in order, top-level `token`, `tokn`, `access_token`, `accessToken`
and then `token`, `tokn` under "data", returning the first present
non-empty value and failing fatally (`none`) otherwise; the
get_open_positions.py helper follows the same order except that only
`token` is probed under "data" (the nested `tokn` probe is absent). -/
theorem token_probe_orders_of_variants (data : Json) :
    signin_token_save data = spec_token_order data ∧
    signin_token_get data = spec_token_order_get data :=
  ⟨signin_token_save_eq_spec data, signin_token_get_eq_spec data⟩

/-- C5 counterexample: the claim states that every fetch helper wraps a
non-JSON success body as `{"raw": text}`; the get_open_positions.py variant
returns the bare body text instead, so the claim is false at this input. -/
theorem get_variant_nonjson_body_not_wrapped :
    ¬ (get_open_positions_result true none "<html>err</html>"
        = some (Json.obj [("raw", Json.str "<html>err</html>")])) := by
  intro h
  have h2 : Json.str "<html>err</html>"
      = Json.obj [("raw", Json.str "<html>err</html>")] := Option.some.inj h
  exact Json.noConfusion h2

/-- C5 (amended): on a success status with a body that is not valid JSON,
save_open_positions.py's fetch returns the fallback wrapper
`{"raw": <body text>}` while get_open_positions.py's fetch returns the bare
body text; in both variants the run continues (the result is `some`)
rather than aborting. -/
theorem nonjson_success_body_fallbacks (text : String) :
    fetch_open_positions_result true none text
        = some (Json.obj [("raw", Json.str text)]) ∧
    get_open_positions_result true none text = some (Json.str text) :=
  ⟨rfl, rfl⟩

/-- C6: the snapshot read yields `none` (absent) rather than failing when
the file does not exist, when its content does not parse as JSON, and when
the parsed content is not a mapping; it returns the parsed mapping exactly
in the remaining case. -/
theorem read_existing_payload_absent_cases :
    read_existing_payload RawFile.absent = none ∧
    read_existing_payload RawFile.invalid = none ∧
    (∀ j : Json, j.isObj = false → read_existing_payload (RawFile.parsed j) = none) ∧
    (∀ fs : List (String × Json),
      read_existing_payload (RawFile.parsed (Json.obj fs)) = some (Json.obj fs)) := by
  refine ⟨rfl, rfl, ?_, fun fs => rfl⟩
  intro j hj
  cases j with
  | obj fs => exact absurd hj (by simp [Json.isObj])
  | null => rfl
  | bool b => rfl
  | num n => rfl
  | fnum q => rfl
  | str s => rfl
  | arr elems => rfl

/-- Witness for C6: a file parsing to a JSON array (not a mapping) reads as
absent. -/
theorem read_existing_payload_absent_cases_witness :
    Json.isObj (Json.arr []) = false ∧
    read_existing_payload (RawFile.parsed (Json.arr [])) = none :=
  ⟨rfl, read_existing_payload_absent_cases.2.2.1 (Json.arr []) rfl⟩

/-- C1 counterexample: with a prior snapshot file that exists and parses to
the empty JSON object, the snapshot is read from disk (`some {}`) and the
new and prior ticket sets are equal (both empty), yet the run rewrites the
snapshot file — refuting the claim that equal ticket sets always mean no
write. -/
theorem run_writes_despite_equal_sets_when_prior_empty_object :
    ¬ ( read_existing_payload emptyPriorFile = some (Json.obj [])
        → ticketSet (extract_positions_map
              (Json.obj [("data", normalize_data emptyPositionsResp)]))
            = ticketSet (extract_positions_map (Json.obj []))
        → ((run_main "931" "t0" emptyPriorFile emptyPositionsResp none none true).exitCode = 0
            ∧ (run_main "931" "t0" emptyPriorFile emptyPositionsResp none none true).wrote
                = false
            ∧ (run_main "931" "t0" emptyPriorFile emptyPositionsResp none none true).notified
                = false)) := by
  intro h
  exact absurd (h rfl (by decide)).2.1 (by decide)

/-- C1 (amended): when the prior snapshot read from disk is a non-empty
mapping (Python-truthy) and the ticket sets extracted from the new payload
and the prior snapshot are equal, the run exits 0, performs no write (the
file is left untouched), and neither attempts nor sends a notification —
regardless of aggregate fields, which the comparison never reads. -/
theorem equal_ticket_sets_skip_write_and_notification
    (pid fa : String) (file : RawFile) (resp : Json) (tgt tgc : Option String)
    (sOk : Bool) (prior : Json)
    (hread : read_existing_payload file = some prior)
    (htruthy : prior.truthy = true)
    (heq : ticketSet (extract_positions_map (Json.obj [("data", normalize_data resp)]))
        = ticketSet (extract_positions_map prior)) :
    (run_main pid fa file resp tgt tgc sOk).exitCode = 0 ∧
    (run_main pid fa file resp tgt tgc sOk).wrote = false ∧
    (run_main pid fa file resp tgt tgc sOk).fileAfter = file ∧
    (run_main pid fa file resp tgt tgc sOk).notifyAttempted = false ∧
    (run_main pid fa file resp tgt tgc sOk).notified = false := by
  unfold run_main
  rw [hread]
  simp only [optTruthy, htruthy, if_true, Option.getD_some, heq, and_self,
    eq_self_iff_true, true_and, if_pos]

/-- Witness for C1 (amended): a prior snapshot with tickets 101, 102 and a
fresh payload with the same tickets in the other order and a different
totalNetPL: the run exits 0 and does not write. -/
theorem equal_ticket_sets_skip_write_witness :
    read_existing_payload (RawFile.parsed priorSnap) = some priorSnap ∧
    Json.truthy priorSnap = true ∧
    ticketSet (extract_positions_map (Json.obj [("data", normalize_data sameTicketsResp)]))
      = ticketSet (extract_positions_map priorSnap) ∧
    (run_main "931" "t1" (RawFile.parsed priorSnap) sameTicketsResp
        (some "bot") (some "chat") true).wrote = false ∧
    (run_main "931" "t1" (RawFile.parsed priorSnap) sameTicketsResp
        (some "bot") (some "chat") true).exitCode = 0 :=
  ⟨rfl, rfl, by decide,
    (equal_ticket_sets_skip_write_and_notification "931" "t1" (RawFile.parsed priorSnap)
      sameTicketsResp (some "bot") (some "chat") true priorSnap rfl rfl (by decide)).2.1,
    (equal_ticket_sets_skip_write_and_notification "931" "t1" (RawFile.parsed priorSnap)
      sameTicketsResp (some "bot") (some "chat") true priorSnap rfl rfl (by decide)).1⟩

/-- C7: with no prior snapshot file, the run treats the state as changed:
the read yields absent, the new snapshot is written unconditionally
(whatever the fetched payload, Telegram configuration and delivery
outcome), and the old ticket set used for the diff is empty. -/
theorem first_run_writes_unconditionally (pid fa : String) (resp : Json)
    (tgt tgc : Option String) (sOk : Bool) :
    read_existing_payload RawFile.absent = none ∧
    (run_main pid fa RawFile.absent resp tgt tgc sOk).wrote = true ∧
    (run_main pid fa RawFile.absent resp tgt tgc sOk).oldTickets = ∅ ∧
    (run_main pid fa RawFile.absent resp tgt tgc sOk).fileAfter
      = RawFile.parsed (new_file_obj pid fa resp) := by
  refine ⟨rfl, ?_⟩
  unfold run_main
  simp only [read_existing_payload, optTruthy, Bool.false_eq_true, false_and,
    if_false, Option.getD_none]
  by_cases htg : strOptTruthy tgt = true ∧ strOptTruthy tgc = true
  · rw [if_pos htg]
    cases sOk
    · exact ⟨rfl, rfl, rfl⟩
    · exact ⟨rfl, rfl, rfl⟩
  · rw [if_neg htg]
    exact ⟨rfl, rfl, rfl⟩

/-- C8: writing the snapshot object and reading it back yields a payload
whose extracted ticket set is identical to the one computed from the fresh
payload immediately before the write. -/
theorem write_read_roundtrip_ticket_set (pid fa : String) (resp : Json) :
    ticketSet (extract_positions_map
        ((read_existing_payload (RawFile.parsed (new_file_obj pid fa resp))).getD Json.null))
      = ticketSet (extract_positions_map (Json.obj [("data", normalize_data resp)])) := rfl

/-- C9: when both Telegram variables are configured and the notification is
attempted, a non-success response from the messaging endpoint
(`sendOk = false`) makes the run exit with a nonzero status. -/
theorem notify_failure_fails_run (pid fa : String) (file : RawFile) (resp : Json)
    (tgt tgc : Option String)
    (hcfg : strOptTruthy tgt = true ∧ strOptTruthy tgc = true)
    (hA : (run_main pid fa file resp tgt tgc false).notifyAttempted = true) :
    (run_main pid fa file resp tgt tgc false).exitCode ≠ 0 := by
  unfold run_main at hA ⊢
  by_cases h1 : optTruthy (read_existing_payload file) = true ∧
      ticketSet (extract_positions_map (Json.obj [("data", normalize_data resp)]))
        = ticketSet (if optTruthy (read_existing_payload file) then
            extract_positions_map ((read_existing_payload file).getD Json.null) else [])
  · rw [if_pos h1] at hA
    exact absurd hA (by simp)
  · rw [if_neg h1] at hA ⊢
    rw [if_pos hcfg] at hA ⊢
    simp

/-- Witness for C9: on a first run with both Telegram variables set and a
failing send, the notification is attempted and the exit code is
nonzero. -/
theorem notify_failure_fails_run_witness :
    (strOptTruthy (some "bot") = true ∧ strOptTruthy (some "chat") = true) ∧
    (run_main "931" "t2" RawFile.absent Json.null (some "bot") (some "chat")
        false).notifyAttempted = true ∧
    (run_main "931" "t2" RawFile.absent Json.null (some "bot") (some "chat")
        false).exitCode ≠ 0 :=
  ⟨by decide, by decide,
    notify_failure_fails_run "931" "t2" RawFile.absent Json.null (some "bot") (some "chat")
      (by decide) (by decide)⟩

/-- C10: a prior snapshot file that exists and parses to the empty JSON
object is read back as a mapping, yet the run behaves as if no prior
snapshot existed: whatever the fetched payload (including one whose ticket
set is empty and thus equal to the prior's), the no-change branch is not
taken, the snapshot is written, and the old ticket set is empty. -/
theorem empty_prior_object_treated_as_no_prior (pid fa : String) (resp : Json)
    (tgt tgc : Option String) (sOk : Bool) :
    read_existing_payload (RawFile.parsed (Json.obj [])) = some (Json.obj []) ∧
    (run_main pid fa (RawFile.parsed (Json.obj [])) resp tgt tgc sOk).wrote = true ∧
    (run_main pid fa (RawFile.parsed (Json.obj [])) resp tgt tgc sOk).oldTickets = ∅ := by
  refine ⟨rfl, ?_⟩
  unfold run_main
  simp only [read_existing_payload, optTruthy, Json.truthy, List.isEmpty_nil,
    Bool.not_true, Bool.false_eq_true, false_and, if_false, Option.getD_some]
  by_cases htg : strOptTruthy tgt = true ∧ strOptTruthy tgc = true
  · rw [if_pos htg]
    cases sOk
    · exact ⟨rfl, rfl⟩
    · exact ⟨rfl, rfl⟩
  · rw [if_neg htg]
    exact ⟨rfl, rfl⟩
